import Mathlib

/-
Verification of aws_gate/query.py: the instance resolver.

The module resolves a user-supplied identifier string (instance ID,
public/private IP, public/private DNS name, tag, or name) into a running
EC2 instance identifier by issuing a single filtered query against an
externally supplied EC2 client.

Shallow embedding conventions:
  - Python strings are Lean String values; character-level operations
    (split, count, startswith, endswith) are modelled over String.toList.
  - The EC2 client (the expression ec2.instances.filter called with the
    final filter list) is a function from the filter list to a response:
    either a list of instances or a botocore ClientError, the failure mode
    the code handles.
  - Python exceptions are the error side of an Except value; ValueError
    carries its message.
  - Each embedded operation also returns the list of provider queries it
    issued (the list of filter lists sent), so that claims about network
    activity are statable.
  - The Python stdlib ipaddress functions used by the code
    (ip_address validity and is_private) are modelled after CPython 3.9:
    faithful IPv4 and IPv6 string parsing and the private-network tables.
-/

namespace AwsGate

/-- Python str.split on a single separator character; mirrors the behavior
of str.split including the empty-string case (result is [[]]). -/
def splitCh (c : Char) : List Char → List (List Char)
  | [] => [[]]
  | x :: xs =>
    if x = c then
      [] :: splitCh c xs
    else
      match splitCh c xs with
      | [] => [[x]]
      | h :: t => (x :: h) :: t

/-- Python str.partition on a single separator character: the part before
the first occurrence, and (when the separator occurs) the part after it. -/
def pyPartition (c : Char) : List Char → List Char × Option (List Char)
  | [] => ([], none)
  | x :: xs =>
    if x = c then ([], some xs)
    else
      match pyPartition c xs with
      | (a, s) => (x :: a, s)

/-- Python str.startswith. -/
def pyStartsWith (s p : String) : Bool := List.isPrefixOf p.toList s.toList

/-- Python str.endswith. -/
def pyEndsWith (s p : String) : Bool := List.isSuffixOf p.toList s.toList

/-- Python str.count for a single-character argument. -/
def pyCount (s : String) (c : Char) : Nat := s.toList.count c

/-- Hexadecimal digit test, as in the _HEX_DIGITS set of CPython ipaddress. -/
def isHexDigitCh (c : Char) : Bool :=
  c.isDigit || ('a' ≤ c && c ≤ 'f') || ('A' ≤ c && c ≤ 'F')

/-- Numeric value of a hexadecimal digit character. -/
def hexVal (c : Char) : Nat :=
  if c.isDigit then c.toNat - 48
  else if 'a' ≤ c && c ≤ 'f' then c.toNat - 87
  else c.toNat - 55

/-- CPython IPv4Address._parse_octet: decimal digits only, at most three
characters, no leading zero, value at most 255. -/
def parse_octet (p : List Char) : Option Nat :=
  if p.isEmpty then none
  else if ¬ p.all Char.isDigit then none
  else if 3 < p.length then none
  else if p.headD '0' = '0' && p.length ≠ 1 then none
  else
    let v := p.foldl (fun a c => a * 10 + (c.toNat - 48)) 0
    if 255 < v then none else some v

/-- CPython IPv4Address string parsing: exactly four octets separated by
dots, no slash, each octet valid; result is the 32-bit numeric value. -/
def parse_ipv4 (s : List Char) : Option Nat :=
  if s.isEmpty then none
  else if s.contains '/' then none
  else
    match (splitCh '.' s).map parse_octet with
    | [some a, some b, some c, some d] => some (((a * 256 + b) * 256 + c) * 256 + d)
    | _ => none

/-- CPython IPv6Address._parse_hextet: hexadecimal digits only, nonempty,
at most four characters. -/
def parse_hextet (p : List Char) : Option Nat :=
  if p.isEmpty then none
  else if ¬ p.all isHexDigitCh then none
  else if 4 < p.length then none
  else some (p.foldl (fun a c => a * 16 + hexVal c) 0)

/-- Accumulate a list of hextet strings into one number, 16 bits each;
none if any hextet is invalid. -/
def hextetsVal (ps : List (List Char)) : Option Nat :=
  ps.foldl
    (fun acc p =>
      match acc, parse_hextet p with
      | some a, some h => some (a * 65536 + h)
      | _, _ => none)
    (some 0)

/-- CPython IPv6Address._ip_int_from_string after splitting on the colon
character (and after substituting an embedded IPv4 suffix): at most nine
parts, at most one empty inner part (the double-colon), leading or
trailing empty part only next to the double-colon, and at most seven
explicit hextets around a double-colon. -/
def parse_ipv6_parts (parts : List (List Char)) : Option Nat :=
  let n := parts.length
  if 9 < n then none
  else
    match (List.range n).filter
        (fun i => decide (0 < i) && decide (i + 1 < n) && (parts.getD i [':']).isEmpty) with
    | [] =>
      if n = 8 then
        if (parts.getD 0 [':']).isEmpty || (parts.getD (n - 1) [':']).isEmpty then none
        else hextetsVal parts
      else none
    | [skip] =>
      if (parts.getD 0 [':']).isEmpty && skip ≠ 1 then none
      else if (parts.getD (n - 1) [':']).isEmpty && n - skip - 1 ≠ 1 then none
      else
        let partsHi := if (parts.getD 0 [':']).isEmpty then 0 else skip
        let partsLo := if (parts.getD (n - 1) [':']).isEmpty then 0 else n - skip - 1
        if 7 < partsHi + partsLo then none
        else
          match hextetsVal (parts.take partsHi), hextetsVal (parts.drop (n - partsLo)) with
          | some hi, some lo => some (hi * 65536 ^ (8 - partsHi) + lo)
          | _, _ => none
    | _ => none

/-- CPython IPv6Address string parsing: no slash, optional nonempty scope
id after a percent sign, at least three colon-separated parts, optional
embedded IPv4 address in the last part. -/
def parse_ipv6 (s : List Char) : Option Nat :=
  if s.contains '/' then none
  else
    match pyPartition '%' s with
    | (addr, scope) =>
      if (match scope with
          | none => false
          | some sc => sc.isEmpty || sc.contains '%') then none
      else if addr.isEmpty then none
      else
        let parts := splitCh ':' addr
        if parts.length < 3 then none
        else
          match parts.getLast? with
          | none => none
          | some lastp =>
            if lastp.contains '.' then
              match parse_ipv4 lastp with
              | none => none
              | some v4 =>
                parse_ipv6_parts
                  (parts.dropLast ++
                    [Nat.toDigits 16 (v4 / 65536), Nat.toDigits 16 (v4 % 65536)])
            else parse_ipv6_parts parts

/-- A parsed IP address: the result of ipaddress.ip_address. -/
inductive IPAddr where
  | v4 (a : Nat) : IPAddr
  | v6 (a : Nat) : IPAddr
deriving DecidableEq

/-- ipaddress.ip_address: try IPv4 first, then IPv6; none when the string
is neither. -/
def ip_address? (s : String) : Option IPAddr :=
  match parse_ipv4 s.toList with
  | some a => some (.v4 a)
  | none =>
    match parse_ipv6 s.toList with
    | some a => some (.v6 a)
    | none => none

/-- Numeric value of the IPv4 dotted quad a.b.c.d. -/
def v4addr (a b c d : Nat) : Nat := ((a * 256 + b) * 256 + c) * 256 + d

/-- The IPv4 private networks of CPython 3.9 ipaddress, as pairs of base
address and routing-mask length. -/
def ipv4_private_nets : List (Nat × Nat) :=
  [(v4addr 0 0 0 0, 8), (v4addr 10 0 0 0, 8), (v4addr 127 0 0 0, 8),
   (v4addr 169 254 0 0, 16), (v4addr 172 16 0 0, 12), (v4addr 192 0 0 0, 29),
   (v4addr 192 0 0 170, 31), (v4addr 192 0 2 0, 24), (v4addr 192 168 0 0, 16),
   (v4addr 198 18 0 0, 15), (v4addr 198 51 100 0, 24), (v4addr 203 0 113 0, 24),
   (v4addr 240 0 0 0, 4), (v4addr 255 255 255 255, 32)]

/-- The IPv6 private networks of CPython 3.9 ipaddress. -/
def ipv6_private_nets : List (Nat × Nat) :=
  [(1, 128), (0, 128), (0xffff * 65536 ^ 2, 96), (0x100 * 65536 ^ 7, 64),
   (0x2001 * 65536 ^ 7, 23), (0x2001 * 65536 ^ 7 + 0x2 * 65536 ^ 6, 48),
   (0x2001 * 65536 ^ 7 + 0xdb8 * 65536 ^ 6, 32),
   (0x2001 * 65536 ^ 7 + 0x10 * 65536 ^ 6, 28),
   (0xfc00 * 65536 ^ 7, 7), (0xfe80 * 65536 ^ 7, 10)]

/-- Membership of an address in a network given the total bit width. -/
def inNet (bits a : Nat) (net : Nat × Nat) : Bool :=
  a / 2 ^ (bits - net.2) == net.1 / 2 ^ (bits - net.2)

/-- IPv4Address.is_private: membership in any IPv4 private network. -/
def ipv4_is_private (a : Nat) : Bool := ipv4_private_nets.any (inNet 32 a)

/-- IPv6Address.is_private: membership in any IPv6 private network. -/
def ipv6_is_private (a : Nat) : Bool := ipv6_private_nets.any (inNet 128 a)

/-- ipaddress.ip_address(s).is_private, defined for parseable strings. -/
def ip_is_private (s : String) : Bool :=
  match ip_address? s with
  | some (.v4 a) => ipv4_is_private a
  | some (.v6 a) => ipv6_is_private a
  | none => false

/-- The function _is_valid_ip of aws_gate/query.py: true when
ipaddress.ip_address accepts the string. -/
def _is_valid_ip (ip : String) : Bool := (ip_address? ip).isSome

/-- One EC2 filter dictionary: a Name key and a Values list. -/
structure Ec2Filter where
  name : String
  values : List String
deriving DecidableEq

/-- One EC2 instance as enumerated by the provider; the code reads only
the instance_id attribute. -/
structure Ec2Instance where
  instance_id : String
deriving DecidableEq

/-- Response of the provider call ec2.instances.filter(Filters=...): the
enumerated instances, a raised botocore.exceptions.ClientError (an error
response from the service), or a raised transport-level exception of the
botocore BotoCoreError family (for example EndpointConnectionError or
ConnectTimeoutError), which is not a ClientError. -/
inductive Ec2Response where
  | ok (instances : List Ec2Instance) : Ec2Response
  | clientError : Ec2Response
  | botoCoreError : Ec2Response

/-- The injected EC2 client handle: maps the full filter list sent to the
provider to its response. -/
def Ec2Client : Type := List Ec2Filter → Ec2Response

/-- Python exceptions observable from this module: ValueError with its
message, aws_gate.exceptions.AWSConnectionError, and a raw botocore
BotoCoreError propagating uncaught through the module (the except clause
of _query_aws_api catches only ClientError). -/
inductive QueryErr where
  | valueError (msg : String) : QueryErr
  | awsConnectionError : QueryErr
  | botoCoreError : QueryErr
deriving DecidableEq

/-- Result of an embedded operation: the returned value or raised
exception, paired with the trace of filter lists sent to the provider. -/
def QueryResult : Type := Except QueryErr (Option String) × List (List Ec2Filter)

/-- The mandatory running-state filter appended by _query_aws_api. -/
def runningFilter : Ec2Filter := ⟨"instance-state-name", ["running"]⟩

/-- The function _query_aws_api of aws_gate/query.py: append the
running-state filter, enumerate the matching instances keeping the last
truthy instance_id, and translate ClientError to AWSConnectionError; any
other provider exception is not caught and propagates raw. -/
def _query_aws_api (filters : List Ec2Filter) (ec2 : Ec2Client) : QueryResult :=
  match ec2 (filters ++ [runningFilter]) with
  | .ok ec2_instances =>
    (Except.ok
      (ec2_instances.foldl
        (fun ret i => if i.instance_id ≠ "" then some i.instance_id else ret) none),
     [filters ++ [runningFilter]])
  | .clientError =>
    (Except.error QueryErr.awsConnectionError, [filters ++ [runningFilter]])
  | .botoCoreError =>
    (Except.error QueryErr.botoCoreError, [filters ++ [runningFilter]])

/-- The function getinstanceidbyprivatednsname of aws_gate/query.py. -/
def getinstanceidbyprivatednsname (name : String) (ec2 : Ec2Client) : QueryResult :=
  _query_aws_api [⟨"private-dns-name", [name]⟩] ec2

/-- The function getinstanceidbydnsname of aws_gate/query.py. -/
def getinstanceidbydnsname (name : String) (ec2 : Ec2Client) : QueryResult :=
  _query_aws_api [⟨"dns-name", [name]⟩] ec2

/-- The function getinstanceidbyprivateipaddress of aws_gate/query.py. -/
def getinstanceidbyprivateipaddress (name : String) (ec2 : Ec2Client) : QueryResult :=
  _query_aws_api [⟨"private-ip-address", [name]⟩] ec2

/-- The function getinstanceidbyipaddress of aws_gate/query.py. -/
def getinstanceidbyipaddress (name : String) (ec2 : Ec2Client) : QueryResult :=
  _query_aws_api [⟨"ip-address", [name]⟩] ec2

/-- The function getinstanceidbytag of aws_gate/query.py: the statement
key, value = name.split(":") raises ValueError unless the split yields
exactly two parts. -/
def getinstanceidbytag (name : String) (ec2 : Ec2Client) : QueryResult :=
  match (splitCh ':' name.toList).map String.mk with
  | [key, value] => _query_aws_api [⟨"tag:" ++ key, [value]⟩] ec2
  | parts =>
    (Except.error
      (QueryErr.valueError
        (if parts.length < 2 then
          "not enough values to unpack (expected 2, got " ++ toString parts.length ++ ")"
         else "too many values to unpack (expected 2)")),
     [])

/-- The function getinstanceidbyinstancename of aws_gate/query.py. -/
def getinstanceidbyinstancename (name : String) (ec2 : Ec2Client) : QueryResult :=
  getinstanceidbytag ("Name:" ++ name) ec2

/-- The function query_instance of aws_gate/query.py: check the client,
return instance IDs directly, otherwise classify the string and dispatch
to the matching lookup helper. -/
def query_instance (name : String) : Option Ec2Client → QueryResult
  | none => (Except.error (QueryErr.valueError "EC2 client is not initialized"), [])
  | some ec2 =>
    if pyStartsWith name "id-" || pyStartsWith name "i-" then
      (Except.ok (some name), [])
    else if _is_valid_ip name then
      if !ip_is_private name then getinstanceidbyipaddress name ec2
      else getinstanceidbyprivateipaddress name ec2
    else if pyEndsWith name "compute.amazonaws.com" then
      getinstanceidbydnsname name ec2
    else if pyEndsWith name "compute.internal" then
      getinstanceidbyprivatednsname name ec2
    else if pyCount name ':' = 1 then
      getinstanceidbytag name ec2
    else
      getinstanceidbyinstancename name ec2

/-- A client used for concrete evaluations: always returns no instances. -/
def nullClient : Ec2Client := fun _ => Ec2Response.ok []

/-- A client used for concrete evaluations: always raises ClientError. -/
def failClient : Ec2Client := fun _ => Ec2Response.clientError

/-- A client used for concrete evaluations: always raises a
transport-level BotoCoreError, which is not a ClientError. -/
def transportFailClient : Ec2Client := fun _ => Ec2Response.botoCoreError

/-- A client used for concrete evaluations: two instances with IDs. -/
def twoInstanceClient : Ec2Client :=
  fun _ => Ec2Response.ok [⟨"i-aaa"⟩, ⟨"i-bbb"⟩]

/-- The split of a list is never the empty list of parts. -/
theorem splitCh_ne_nil (c : Char) (l : List Char) : splitCh c l ≠ [] := by
  induction l with
  | nil => simp [splitCh]
  | cons x xs ih =>
    by_cases hx : x = c
    · simp [splitCh, hx]
    · rcases hs : splitCh c xs with _ | ⟨a, b⟩
      · exact absurd hs ih
      · simp [splitCh, hx, hs]

/-- A list without the separator splits into the single whole part. -/
theorem splitCh_count_zero (c : Char) (l : List Char) (h : l.count c = 0) :
    splitCh c l = [l] := by
  induction l with
  | nil => rfl
  | cons x xs ih =>
    rw [List.count_cons] at h
    have hx : ¬ x = c := by
      intro e
      simp [e] at h
    have hxs : xs.count c = 0 := by
      by_cases hb : (x == c) = true
      · exact absurd (beq_iff_eq.mp hb) hx
      · simpa [hb] using h
    simp [splitCh, hx, ih hxs]

/-- A split with a single part recovers the whole list. -/
theorem splitCh_singleton (c : Char) (l r : List Char) (h : splitCh c l = [r]) :
    l = r := by
  induction l generalizing r with
  | nil =>
    simp [splitCh] at h
    exact h.symm
  | cons x xs ih =>
    by_cases hx : x = c
    · simp [splitCh, hx] at h
      exact absurd h.2 (splitCh_ne_nil c xs)
    · rcases hs : splitCh c xs with _ | ⟨a, b⟩
      · exact absurd hs (splitCh_ne_nil c xs)
      · simp [splitCh, hx, hs] at h
        obtain ⟨h1, h2⟩ := h
        subst h2
        rw [← h1, ih a (by rw [hs])]

/-- A split with exactly two parts locates the unique separator. -/
theorem splitCh_pair (c : Char) (l a b : List Char) (h : splitCh c l = [a, b]) :
    l = a ++ c :: b := by
  induction l generalizing a with
  | nil => simp [splitCh] at h
  | cons x xs ih =>
    by_cases hx : x = c
    · simp [splitCh, hx] at h
      obtain ⟨h1, h2⟩ := h
      subst h1
      rw [hx, splitCh_singleton c xs b h2]
      rfl
    · rcases hs : splitCh c xs with _ | ⟨p, t⟩
      · exact absurd hs (splitCh_ne_nil c xs)
      · simp [splitCh, hx, hs] at h
        obtain ⟨h1, h2⟩ := h
        subst h1
        have := ih p (by rw [hs, h2])
        simp [this]

/-- The selection loop of _query_aws_api keeps the last instance whose
instance_id is nonempty, starting from the given accumulator. -/
theorem foldl_last_nonempty (l : List Ec2Instance) (init : Option String) :
    l.foldl
      (fun ret i => if i.instance_id ≠ "" then some i.instance_id else ret) init =
      ((l.filter fun i => i.instance_id ≠ "").getLast?).elim init
        (fun i => some i.instance_id) := by
  induction l generalizing init with
  | nil => rfl
  | cons x xs ih =>
    by_cases hx : x.instance_id ≠ ""
    · rw [List.foldl_cons, if_pos hx, ih, List.filter_cons_of_pos (by simpa using hx)]
      rcases hfs : xs.filter (fun i => i.instance_id ≠ "") with _ | ⟨y, ys⟩
      · rw [hfs]
        rfl
      · rw [hfs, List.getLast?_cons_cons, List.getLast?_eq_getLast (y :: ys) (by simp)]
        rfl
    · rw [List.foldl_cons, if_neg hx, ih, List.filter_cons_of_neg (by simpa using hx)]

/-- The trace of _query_aws_api is the single augmented filter list. -/
theorem trace_query_aws_api (fs : List Ec2Filter) (ec2 : Ec2Client) :
    (_query_aws_api fs ec2).2 = [fs ++ [runningFilter]] := by
  unfold _query_aws_api
  cases h : ec2 (fs ++ [runningFilter]) <;> rfl

/-- On a failing client, _query_aws_api raises AWSConnectionError after
the single query. -/
theorem query_aws_api_clientError (fs : List Ec2Filter) (ec2 : Ec2Client)
    (hf : ec2 (fs ++ [runningFilter]) = Ec2Response.clientError) :
    _query_aws_api fs ec2 =
      (Except.error QueryErr.awsConnectionError, [fs ++ [runningFilter]]) := by
  unfold _query_aws_api
  rw [hf]

/-- getinstanceidbytag either raises ValueError with no query, or performs
one provider query. -/
theorem tag_shape (name : String) (ec2 : Ec2Client) :
    (∃ m, getinstanceidbytag name ec2 = (Except.error (QueryErr.valueError m), [])) ∨
    (∃ fs, getinstanceidbytag name ec2 = _query_aws_api fs ec2) := by
  unfold getinstanceidbytag
  cases hls : (splitCh ':' name.toList).map String.mk with
  | nil => exact Or.inl ⟨_, rfl⟩
  | cons k rest =>
    cases rest with
    | nil => exact Or.inl ⟨_, rfl⟩
    | cons v rest2 =>
      cases rest2 with
      | nil => exact Or.inr ⟨_, rfl⟩
      | cons w rest3 => exact Or.inl ⟨_, rfl⟩

/-- query_instance either passes the name through with no query, raises
ValueError with no query, or performs exactly one provider query. -/
theorem query_instance_shape (name : String) (c : Ec2Client) :
    query_instance name (some c) = (Except.ok (some name), []) ∨
    (∃ m, query_instance name (some c) = (Except.error (QueryErr.valueError m), [])) ∨
    (∃ fs, query_instance name (some c) = _query_aws_api fs c) := by
  simp only [query_instance]
  by_cases h0 : (pyStartsWith name "id-" || pyStartsWith name "i-") = true
  · rw [if_pos h0]
    exact Or.inl rfl
  · rw [if_neg h0]
    by_cases h1 : _is_valid_ip name = true
    · rw [if_pos h1]
      by_cases h2 : (!ip_is_private name) = true
      · rw [if_pos h2]
        exact Or.inr (Or.inr ⟨_, rfl⟩)
      · rw [if_neg h2]
        exact Or.inr (Or.inr ⟨_, rfl⟩)
    · rw [if_neg h1]
      by_cases h3 : pyEndsWith name "compute.amazonaws.com" = true
      · rw [if_pos h3]
        exact Or.inr (Or.inr ⟨_, rfl⟩)
      · rw [if_neg h3]
        by_cases h4 : pyEndsWith name "compute.internal" = true
        · rw [if_pos h4]
          exact Or.inr (Or.inr ⟨_, rfl⟩)
        · rw [if_neg h4]
          by_cases h5 : pyCount name ':' = 1
          · rw [if_pos h5]
            exact Or.inr (tag_shape name c)
          · rw [if_neg h5]
            exact Or.inr (tag_shape ("Name:" ++ name) c)

/-- C5: with an absent client handle, query_instance raises ValueError
immediately, before any classification and with no provider query, for
every input string including direct instance IDs. -/
theorem query_instance_requires_client (name : String) :
    query_instance name none =
      (Except.error (QueryErr.valueError "EC2 client is not initialized"), []) := rfl

/-- C4: a string starting with id- or i- is returned unchanged and no
provider query is issued. -/
theorem query_instance_direct_id_passthrough (name : String) (client : Ec2Client)
    (h : pyStartsWith name "id-" = true ∨ pyStartsWith name "i-" = true) :
    query_instance name (some client) = (Except.ok (some name), []) := by
  rcases h with h | h <;> simp [query_instance, h]

/-- Witness for C4 at the input i-0abc123. -/
theorem query_instance_direct_id_passthrough_witness :
    (pyStartsWith "i-0abc123" "id-" = true ∨ pyStartsWith "i-0abc123" "i-" = true) ∧
    query_instance "i-0abc123" (some nullClient) = (Except.ok (some "i-0abc123"), []) :=
  ⟨Or.inr rfl, query_instance_direct_id_passthrough "i-0abc123" nullClient (Or.inr rfl)⟩

/-- C3: every filter list sent to the provider by query_instance contains
the instance-state-name = running constraint. -/
theorem query_instance_running_state_constraint (name : String)
    (ec2 : Option Ec2Client) (q : List Ec2Filter)
    (hq : q ∈ (query_instance name ec2).2) : runningFilter ∈ q := by
  cases ec2 with
  | none => simp [query_instance] at hq
  | some c =>
    rcases query_instance_shape name c with h | ⟨m, h⟩ | ⟨fs, h⟩
    · rw [h] at hq
      simp at hq
    · rw [h] at hq
      simp at hq
    · rw [h, trace_query_aws_api] at hq
      simp at hq
      subst hq
      simp

/-- Witness for C3 at the input webserver01. -/
theorem query_instance_running_state_constraint_witness :
    runningFilter ∈ ([⟨"tag:Name", ["webserver01"]⟩, runningFilter] : List Ec2Filter) :=
  query_instance_running_state_constraint "webserver01" (some nullClient) _ (by decide)

/-- C2 (amended): when the provider raises ClientError, any query_instance
call that issues a query raises the uniform AWSConnectionError — not the
raw provider error and not a value — and issues exactly one query with no
retry. Provider failures outside ClientError are not translated; see the
accompanying counterexample. -/
theorem query_instance_uniform_connection_error (name : String) (client : Ec2Client)
    (hfail : ∀ fs, client fs = Ec2Response.clientError)
    (hquery : (query_instance name (some client)).2 ≠ []) :
    (query_instance name (some client)).1 = Except.error QueryErr.awsConnectionError ∧
    (query_instance name (some client)).2.length = 1 := by
  rcases query_instance_shape name client with h | ⟨m, h⟩ | ⟨fs, h⟩
  · rw [h] at hquery
    simp at hquery
  · rw [h] at hquery
    simp at hquery
  · rw [h, query_aws_api_clientError fs client (hfail _)]
    exact ⟨rfl, rfl⟩

/-- Witness for C2 at the input webserver01 with a failing client. -/
theorem query_instance_uniform_connection_error_witness :
    (query_instance "webserver01" (some failClient)).1 =
      Except.error QueryErr.awsConnectionError ∧
    (query_instance "webserver01" (some failClient)).2.length = 1 :=
  query_instance_uniform_connection_error "webserver01" failClient
    (fun _ => rfl) (by decide)

/-- Counterexample to C2 as stated: with a client whose query raises a
transport-level BotoCoreError (for example EndpointConnectionError), a
query is issued, yet query_instance propagates the raw provider error and
does not raise AWSConnectionError, because the except clause of
_query_aws_api catches only ClientError. -/
theorem query_instance_raw_transport_error_counterexample :
    (query_instance "webserver01" (some transportFailClient)).2 ≠ [] ∧
    (query_instance "webserver01" (some transportFailClient)).1 =
      Except.error QueryErr.botoCoreError ∧
    (query_instance "webserver01" (some transportFailClient)).1 ≠
      Except.error QueryErr.awsConnectionError :=
  ⟨by decide, rfl,
   fun h => absurd (Except.error.inj h) (by decide)⟩

/-- C6: on a successful query over instances that all carry an identifier,
the result is the identifier of the last enumerated instance, and the
empty enumeration yields an absent result with no error. -/
theorem query_aws_api_last_match_wins (fs : List Ec2Filter) (client : Ec2Client)
    (l : List Ec2Instance)
    (hresp : client (fs ++ [runningFilter]) = Ec2Response.ok l)
    (hids : ∀ i ∈ l, i.instance_id ≠ "") :
    (_query_aws_api fs client).1 =
      Except.ok (l.getLast?.map (fun i => i.instance_id)) := by
  unfold _query_aws_api
  rw [hresp]
  show Except.ok _ = _
  rw [foldl_last_nonempty, List.filter_eq_self.mpr (fun a ha => by simpa using hids a ha)]
  cases h : l.getLast? <;> rfl

/-- Witness for C6: two matching instances, the second one wins; and the
empty response yields none. -/
theorem query_aws_api_last_match_wins_witness :
    (_query_aws_api [] twoInstanceClient).1 = Except.ok (some "i-bbb") ∧
    (_query_aws_api [] nullClient).1 = Except.ok none :=
  ⟨query_aws_api_last_match_wins [] twoInstanceClient [⟨"i-aaa"⟩, ⟨"i-bbb"⟩]
      rfl (by decide),
   query_aws_api_last_match_wins [] nullClient [] rfl (by decide)⟩

/-- C10: on a successful query the result is the identifier of the last
enumerated instance whose instance_id is nonempty (instances with an
empty instance_id are skipped), absent when there is none; in particular
the result is never the empty string. -/
theorem query_aws_api_skips_empty_ids (fs : List Ec2Filter) (client : Ec2Client)
    (l : List Ec2Instance)
    (hresp : client (fs ++ [runningFilter]) = Ec2Response.ok l) :
    (_query_aws_api fs client).1 =
      Except.ok
        (((l.filter fun i => i.instance_id ≠ "").getLast?).map
          (fun i => i.instance_id)) ∧
    ∀ s, (_query_aws_api fs client).1 = Except.ok (some s) → s ≠ "" := by
  have hmain : (_query_aws_api fs client).1 =
      Except.ok
        (((l.filter fun i => i.instance_id ≠ "").getLast?).map
          (fun i => i.instance_id)) := by
    unfold _query_aws_api
    rw [hresp]
    show Except.ok _ = _
    rw [foldl_last_nonempty]
    cases h : (l.filter fun i => i.instance_id ≠ "").getLast? <;> rfl
  refine ⟨hmain, fun s hs => ?_⟩
  rw [hmain] at hs
  rcases hlast : (l.filter fun i => i.instance_id ≠ "").getLast? with _ | ⟨z⟩
  · rw [hlast] at hs
    simp at hs
  · rw [hlast] at hs
    simp at hs
    have hz : z ∈ l.filter fun i => i.instance_id ≠ "" := by
      rcases hfl : l.filter fun i => i.instance_id ≠ "" with _ | ⟨y, ys⟩
      · rw [hfl] at hlast
        simp at hlast
      · rw [hfl] at hlast
        rw [List.getLast?_eq_getLast (y :: ys) (by simp)] at hlast
        rw [hfl]
        exact (Option.some_inj.mp hlast) ▸ List.getLast_mem (by simp)
    have := List.of_mem_filter hz
    rw [← hs]
    simpa using this

/-- Witness for C10: an instance with an empty identifier enumerated last
is skipped, so the earlier identifier wins. -/
theorem query_aws_api_skips_empty_ids_witness :
    (_query_aws_api [] (fun _ => Ec2Response.ok [⟨"i-aaa"⟩, ⟨""⟩])).1 =
      Except.ok
        ((((([⟨"i-aaa"⟩, ⟨""⟩] : List Ec2Instance).filter
            fun i => i.instance_id ≠ "").getLast?).map (fun i => i.instance_id))) ∧
    ∀ s, (_query_aws_api [] (fun _ => Ec2Response.ok [⟨"i-aaa"⟩, ⟨""⟩])).1 =
        Except.ok (some s) → s ≠ "" :=
  query_aws_api_skips_empty_ids [] (fun _ => Ec2Response.ok [⟨"i-aaa"⟩, ⟨""⟩])
    [⟨"i-aaa"⟩, ⟨""⟩] rfl

/-- C7: a valid IP string that is not an instance ID is looked up with the
ip-address filter exactly when the address is not private, and with the
private-ip-address filter exactly when it is private. -/
theorem query_instance_ip_classification (name : String) (client : Ec2Client)
    (h1 : pyStartsWith name "id-" = false) (h2 : pyStartsWith name "i-" = false)
    (hip : _is_valid_ip name = true) :
    (ip_is_private name = false →
      query_instance name (some client) =
        _query_aws_api [⟨"ip-address", [name]⟩] client) ∧
    (ip_is_private name = true →
      query_instance name (some client) =
        _query_aws_api [⟨"private-ip-address", [name]⟩] client) := by
  constructor <;> intro hp <;>
    simp [query_instance, getinstanceidbyipaddress, getinstanceidbyprivateipaddress,
      h1, h2, hip, hp]

/-- Witness for C7 at the public address 8.8.8.8 and the private address
10.0.0.5. -/
theorem query_instance_ip_classification_witness :
    query_instance "8.8.8.8" (some nullClient) =
      _query_aws_api [⟨"ip-address", ["8.8.8.8"]⟩] nullClient ∧
    query_instance "10.0.0.5" (some nullClient) =
      _query_aws_api [⟨"private-ip-address", ["10.0.0.5"]⟩] nullClient :=
  ⟨(query_instance_ip_classification "8.8.8.8" nullClient rfl rfl (by decide)).1
      (by decide),
   (query_instance_ip_classification "10.0.0.5" nullClient rfl rfl (by decide)).2
      (by decide)⟩

/-- C9: a string that is no instance ID and no valid IP is looked up with
the dns-name filter when it ends with compute.amazonaws.com, and with the
private-dns-name filter when it does not and ends with compute.internal;
the public suffix is tested first. -/
theorem query_instance_dns_classification (name : String) (client : Ec2Client)
    (h1 : pyStartsWith name "id-" = false) (h2 : pyStartsWith name "i-" = false)
    (hip : _is_valid_ip name = false) :
    (pyEndsWith name "compute.amazonaws.com" = true →
      query_instance name (some client) =
        _query_aws_api [⟨"dns-name", [name]⟩] client) ∧
    (pyEndsWith name "compute.amazonaws.com" = false →
      pyEndsWith name "compute.internal" = true →
      query_instance name (some client) =
        _query_aws_api [⟨"private-dns-name", [name]⟩] client) := by
  constructor
  · intro hd
    simp [query_instance, getinstanceidbydnsname, h1, h2, hip, hd]
  · intro hd1 hd2
    simp [query_instance, getinstanceidbyprivatednsname, h1, h2, hip, hd1, hd2]

/-- Witness for C9 at a public and a private EC2 DNS name. -/
theorem query_instance_dns_classification_witness :
    query_instance "ec2-203-0-113-5.compute.amazonaws.com" (some nullClient) =
      _query_aws_api
        [⟨"dns-name", ["ec2-203-0-113-5.compute.amazonaws.com"]⟩] nullClient ∧
    query_instance "ip-10-0-0-5.ec2.compute.internal" (some nullClient) =
      _query_aws_api
        [⟨"private-dns-name", ["ip-10-0-0-5.ec2.compute.internal"]⟩] nullClient :=
  ⟨(query_instance_dns_classification "ec2-203-0-113-5.compute.amazonaws.com"
      nullClient rfl rfl (by decide)).1 rfl,
   (query_instance_dns_classification "ip-10-0-0-5.ec2.compute.internal"
      nullClient rfl rfl (by decide)).2 rfl rfl⟩

/-- C8: a string with exactly one colon, matching no earlier rule, is
looked up with the filter tag:key = [value], where the key is the part
before the colon and the value the part after it. -/
theorem query_instance_tag_classification (name key value : String)
    (client : Ec2Client)
    (h1 : pyStartsWith name "id-" = false) (h2 : pyStartsWith name "i-" = false)
    (hip : _is_valid_ip name = false)
    (hd1 : pyEndsWith name "compute.amazonaws.com" = false)
    (hd2 : pyEndsWith name "compute.internal" = false)
    (hc : pyCount name ':' = 1)
    (hsplit : splitCh ':' name.toList = [key.toList, value.toList]) :
    query_instance name (some client) =
      _query_aws_api [⟨"tag:" ++ key, [value]⟩] client ∧
    name = key ++ ":" ++ value := by
  constructor
  · have hmatch : getinstanceidbytag name client =
        _query_aws_api [⟨"tag:" ++ key, [value]⟩] client := by
      unfold getinstanceidbytag
      rw [hsplit]
      rfl
    simp [query_instance, h1, h2, hip, hd1, hd2, hc, hmatch]
  · have h := splitCh_pair ':' name.toList key.toList value.toList hsplit
    apply String.ext
    rw [String.data_append, String.data_append]
    simpa [String.toList] using h

/-- Witness for C8 at the input env:prod. -/
theorem query_instance_tag_classification_witness :
    (query_instance "env:prod" (some nullClient) =
      _query_aws_api [⟨"tag:env", ["prod"]⟩] nullClient) ∧
    "env:prod" = "env" ++ ":" ++ "prod" :=
  query_instance_tag_classification "env:prod" "env" "prod" nullClient
    rfl rfl (by decide) rfl rfl rfl (by decide)

/-- C1 (amended): a string with no colon, matching no earlier rule, is
looked up with the filter tag:Name = [the string]. -/
theorem query_instance_name_kind (name : String) (client : Ec2Client)
    (h1 : pyStartsWith name "id-" = false) (h2 : pyStartsWith name "i-" = false)
    (hip : _is_valid_ip name = false)
    (hd1 : pyEndsWith name "compute.amazonaws.com" = false)
    (hd2 : pyEndsWith name "compute.internal" = false)
    (hc : pyCount name ':' = 0) :
    query_instance name (some client) =
      _query_aws_api [⟨"tag:Name", [name]⟩] client := by
  have hsp : splitCh ':' name.data = [name.data] :=
    splitCh_count_zero ':' name.toList hc
  have hlist : ("Name:" ++ name).toList = 'N' :: 'a' :: 'm' :: 'e' :: ':' :: name.toList := by
    obtain ⟨d⟩ := name
    rfl
  have hsplit2 : splitCh ':' ("Name:" ++ name).toList =
      [['N', 'a', 'm', 'e'], name.toList] := by
    rw [hlist]
    simp [splitCh, hsp]
  have hc1 : ¬ pyCount name ':' = 1 := by
    rw [hc]
    exact Nat.zero_ne_one
  have hmatch : getinstanceidbyinstancename name client =
      _query_aws_api [⟨"tag:Name", [name]⟩] client := by
    unfold getinstanceidbyinstancename getinstanceidbytag
    rw [hsplit2]
    rfl
  simp [query_instance, h1, h2, hip, hd1, hd2, hc1, hmatch]

/-- Witness for the amended C1 at the input webserver01. -/
theorem query_instance_name_kind_witness :
    query_instance "webserver01" (some nullClient) =
      _query_aws_api [⟨"tag:Name", ["webserver01"]⟩] nullClient :=
  query_instance_name_kind "webserver01" nullClient rfl rfl (by decide) rfl rfl rfl

/-- Counterexample to C1 as stated: the input a:b:c has no colon count of
one, is no IP, no instance ID and no DNS suffix, so the claim says a
tag:Name query is issued; the code instead raises ValueError from tuple
unpacking in getinstanceidbytag and issues no query at all. -/
theorem query_instance_multicolon_counterexample :
    pyStartsWith "a:b:c" "id-" = false ∧ pyStartsWith "a:b:c" "i-" = false ∧
    _is_valid_ip "a:b:c" = false ∧
    pyEndsWith "a:b:c" "compute.amazonaws.com" = false ∧
    pyEndsWith "a:b:c" "compute.internal" = false ∧
    pyCount "a:b:c" ':' ≠ 1 ∧
    (query_instance "a:b:c" (some nullClient)).2 = [] ∧
    (query_instance "a:b:c" (some nullClient)).1 =
      Except.error (QueryErr.valueError "too many values to unpack (expected 2)") :=
  ⟨rfl, rfl, by decide, rfl, rfl, by decide, rfl, rfl⟩

end AwsGate
